import Mathlib

/-!
Verification of the Crelec blower-selection chatbot core.

The development shallowly embeds two layers of the repository:

* the frontend quote generator (`QuoteGenerator` in the jsPDF quote module):
  JavaScript numeric fields are modelled as `Option ℚ` where `none` stands for
  `undefined`/`NaN`, and JavaScript truthiness (`x || y`) is modelled
  explicitly;
* the conversation/calculation/matching core.  The Python sources
  (`api/chat.py`, `enhanced_calculator.py`) are not part of the packaged
  sources, so those components are modelled from the specification's words,
  as marked on each definition.

All arithmetic is over `ℚ`; every definition is executable.
-/

namespace Crelec

/-! ## JavaScript value helpers (for the quote generator embedding)

A JavaScript number field is `Option ℚ`: `none` models `undefined` (and the
`NaN` produced by arithmetic on `undefined`), `some v` a real number.  -/

/-- JavaScript truthiness of a numeric value: `undefined`/`NaN` and `0` are
falsy, every other number is truthy. -/
def truthyQ : Option ℚ → Bool
  | some v => v != 0
  | none => false

/-- JavaScript truthiness of a boolean field that may be absent. -/
def truthyB : Option Bool → Bool
  | some b => b
  | none => false

/-- JavaScript `x || y` on numeric values. -/
def jsOr (x y : Option ℚ) : Option ℚ :=
  if truthyQ x then x else y

/-- JavaScript division of a possibly-undefined value by a constant:
`undefined / c` is `NaN`, modelled as `none`. -/
def jsDiv (x : Option ℚ) (c : ℚ) : Option ℚ :=
  x.map (fun v => v / c)

/-- JavaScript `x || 0` read as a number. -/
def jsNum0 (x : Option ℚ) : ℚ :=
  if truthyQ x then x.getD 0 else 0

/-! ## Product records as the quote generator receives them

The catalog rows reaching `QuoteGenerator` come in two shapes (old fields
`airflow_min`/`airflow_max`/`pressure_min`/`pressure_max` in per-hour units,
new fields `airflow_m3_min`/`pressure` in per-minute units), so every field
is optional, exactly as the duck-typed JavaScript object is. -/

structure JSProduct where
  model : String
  airflow_m3_min : Option ℚ
  airflow_m3_max : Option ℚ
  airflow : Option ℚ
  airflow_min : Option ℚ
  airflow_max : Option ℚ
  pressure : Option ℚ
  pressure_min : Option ℚ
  pressure_max : Option ℚ
  power : Option ℚ
  price : Option ℚ
  in_stock : Option Bool
  stock_status : Option String
  delivery_days : Option ℚ
  deriving Repr, DecidableEq

/-- A product with every optional field absent. -/
def emptyJSProduct : JSProduct :=
  { model := ""
    airflow_m3_min := none
    airflow_m3_max := none
    airflow := none
    airflow_min := none
    airflow_max := none
    pressure := none
    pressure_min := none
    pressure_max := none
    power := none
    price := none
    in_stock := none
    stock_status := none
    delivery_days := none }

/-! ## QuoteGenerator embedding

`generatePDF` is embedded as the function from the generation date (a day
count) and the quote data to the record of fields the PDF displays; the
layout calls (`doc.text`, colors, coordinates) are not modelled, only the
values they print. -/

/-- The three stock states `getStockStatus` can report, abstracting the
`{text, color}` record literal returned on each branch. -/
inductive StockLabel where
  | inStock
  | lowStock
  | onOrder
  deriving Repr, DecidableEq

/-- Embeds `QuoteGenerator.getStockStatus`:
`const inStock = product.in_stock || product.stock_status === 'in_stock';`
then `if (inStock) ... else if (product.stock_status === 'low_stock') ...
else ...`. -/
def getStockStatus (p : JSProduct) : StockLabel :=
  if truthyB p.in_stock || p.stock_status == some "in_stock" then
    .inStock
  else if p.stock_status == some "low_stock" then
    .lowStock
  else
    .onOrder

/-- Embeds the per-product spec lines of `generatePDF`:
`const airflow = product.airflow_m3_min || product.airflow / 60 || 0;`. -/
def displayedAirflow (p : JSProduct) : ℚ :=
  (jsOr (jsOr p.airflow_m3_min (jsDiv p.airflow 60)) (some 0)).getD 0

/-- Embeds
`const pressure = product.pressure ||
  ((product.pressure_min || 0) + (product.pressure_max || 0)) / 2;`. -/
def displayedPressure (p : JSProduct) : ℚ :=
  (jsOr p.pressure (some ((jsNum0 p.pressure_min + jsNum0 p.pressure_max) / 2))).getD 0

/-- One recommended-product block of the PDF (model line, spec lines, price
line, stock-status line). -/
structure ProductLine where
  model : String
  airflow : ℚ
  pressure : ℚ
  power : ℚ
  priceShown : Option ℚ
  status : StockLabel
  deriving Repr, DecidableEq

/-- One entry of `quoteData.products`. -/
structure JSMatch where
  match_type : String
  product : JSProduct
  deriving Repr, DecidableEq

/-- `quoteData.customer_data`. -/
structure JSCustomer where
  email : String
  application : Option String
  length : Option ℚ
  width : Option ℚ
  height : Option ℚ
  altitude : Option ℚ
  deriving Repr, DecidableEq

/-- `quoteData.calculation`. -/
structure JSCalculation where
  tank_volume : ℚ
  airflow_required : ℚ
  airflow_required_hr : Option ℚ
  pressure_required : ℚ
  power_estimate : ℚ
  deriving Repr, DecidableEq

/-- `quoteData` as `generatePDF` consumes it. -/
structure QuoteData where
  quote_id : String
  customer_data : JSCustomer
  calculation : JSCalculation
  products : List JSMatch
  deriving Repr, DecidableEq

/-- The displayed fields of the generated PDF.  Dates are day counts since an
arbitrary epoch: `new Date()` is the generation day, and
`validUntil.setDate(validUntil.getDate() + 30)` adds exactly thirty days
(JavaScript normalises month overflow). -/
structure PDFFields where
  quote_id : String
  dateDays : ℕ
  validUntilDays : ℕ
  clientEmail : String
  applicationText : String
  tankLength : ℚ
  tankWidth : ℚ
  tankHeight : ℚ
  altitudeShown : ℚ
  airflowShown : ℚ
  airflowHrShown : ℚ
  pressureShown : ℚ
  powerShown : ℚ
  productLines : List ProductLine
  deriving Repr, DecidableEq

/-- Embeds `QuoteGenerator.formatApplicationType`. -/
def formatApplicationType (t : String) : String :=
  if t = "waste_water" then "Waste Water Treatment"
  else if t = "fish_hatchery" then "Fish Hatchery / Aquaculture"
  else if t = "industrial" then "Industrial Process"
  else if t = "general" then "General Industrial"
  else "General Application"

/-- JavaScript `s || d` for an optional string (empty string is falsy). -/
def jsOrStr (x : Option String) (d : String) : String :=
  match x with
  | some s => if s = "" then d else s
  | none => d

/-- Embeds the product block of `generatePDF` for one `quoteData.products`
entry (model, airflow/pressure/power lines, price line, stock status). -/
def renderProductLine (m : JSMatch) : ProductLine :=
  { model := m.product.model
    airflow := displayedAirflow m.product
    pressure := displayedPressure m.product
    power := jsNum0 m.product.power
    priceShown := if truthyQ m.product.price then m.product.price else none
    status := getStockStatus m.product }

/-- Embeds `QuoteGenerator.generatePDF` as the map from the generation day
and the quote data to the displayed fields. -/
def generatePDF (today : ℕ) (q : QuoteData) : PDFFields :=
  { quote_id := q.quote_id
    dateDays := today
    validUntilDays := today + 30
    clientEmail := q.customer_data.email
    applicationText :=
      formatApplicationType (jsOrStr q.customer_data.application "industrial")
    tankLength := jsNum0 q.customer_data.length
    tankWidth := jsNum0 q.customer_data.width
    tankHeight := jsNum0 q.customer_data.height
    altitudeShown := jsNum0 q.customer_data.altitude
    airflowShown := q.calculation.airflow_required
    airflowHrShown :=
      (jsOr q.calculation.airflow_required_hr
        (some (q.calculation.airflow_required * 60))).getD 0
    pressureShown := q.calculation.pressure_required
    powerShown := q.calculation.power_estimate
    productLines := q.products.map renderProductLine }

/-! ## Calculation engine

Modelled from the spec: the Python calculation engine (`api/chat.py`,
`enhanced_calculator.py`) is not among the packaged sources; the definitions
below follow §4.3 of the specification step by step (geometry and per-tank
aggregation, application coefficient table, static pressure, Darcy–Weisbach
friction, fitting K-factors, diffuser table, altitude correction with the
sea-level override, environment factor table, power estimate). -/

/-- One tank's dimensions in meters. -/
structure Tank where
  length : ℚ
  width : ℚ
  depth : ℚ
  deriving Repr, DecidableEq

/-- Plan area of a tank (length × width). -/
def planArea (t : Tank) : ℚ := t.length * t.width

/-- Volume of a tank (plan area × depth). -/
def tankVolume (t : Tank) : ℚ := planArea t * t.depth

/-- Application types of the coefficient table. -/
inductive Application where
  | wasteWater
  | fishFarm
  | industrial
  deriving Repr, DecidableEq

/-- Environment conditions of the safety-multiplier table. -/
inductive EnvCondition where
  | normal
  | wetHumid
  | dusty
  | coastal
  | gasChemical
  | extremeClimate
  deriving Repr, DecidableEq

/-- Diffuser types of the pressure-drop table. -/
inductive DiffuserType where
  | fineBubble
  | disc
  | coarse
  | tube
  deriving Repr, DecidableEq

/-- How the user's altitude/location answer resolved. -/
inductive LocationKind where
  | seaLevel
  | coastalCity
  | inland
  deriving Repr, DecidableEq

/-- Whether the location resolves to sea level or a recognized coastal city
(the dedicated altitude-zero rule applies). -/
def locationIsCoastal : LocationKind → Bool
  | .seaLevel => true
  | .coastalCity => true
  | .inland => false

/-- Tank plumbing configuration for multiple tanks. -/
inductive TankConfig where
  | series
  | parallel
  deriving Repr, DecidableEq

/-- Pipe system answer: diameter and length in the form's units, number of
90° bends. -/
structure PipeSpec where
  diameter : ℚ
  length : ℚ
  bends : ℕ
  deriving Repr, DecidableEq

/-- Operation type (first step of the flow; not used by the sizing
formulas). -/
inductive Operation where
  | compression
  | vacuum
  deriving Repr, DecidableEq

/-- A completed answer set, one value per step of the conversation. -/
structure Answers where
  operation : Operation
  altitude : Option ℚ
  location : LocationKind
  application : Application
  environment : EnvCondition
  config : TankConfig
  tanks : List Tank
  pipe : PipeSpec
  diffuser : DiffuserType
  email : String
  deriving Repr, DecidableEq

/-- Injected reference data (immutable snapshot, §9): specific gravity,
friction factor (representative value of the 0.02–0.03 band), air density,
air-changes default for industrial sizing, diffuser pressure-drop table,
numeric altitude default, assumed blower efficiency. -/
structure RefData where
  specificGravity : ℚ
  frictionFactor : ℚ
  airDensity : ℚ
  airChangesPerHour : ℚ
  diffuserLoss : DiffuserType → ℚ
  defaultAltitude : ℚ
  efficiency : ℚ

/-- Representative diffuser pressure drops from the documented ranges
(fine bubble 250, disc 200, tube 150, coarse 50). -/
def standardDiffuserLoss : DiffuserType → ℚ
  | .fineBubble => 250
  | .disc => 200
  | .tube => 150
  | .coarse => 50

/-- Default reference-data snapshot (clean water, friction factor 0.025,
air density 1.2, two air changes per hour, 500 m numeric altitude default,
efficiency 0.5). -/
def defaultRefData : RefData :=
  { specificGravity := 1
    frictionFactor := 25 / 1000
    airDensity := 6 / 5
    airChangesPerHour := 2
    diffuserLoss := standardDiffuserLoss
    defaultAltitude := 500
    efficiency := 1 / 2 }

/-- Environment safety-multiplier table (fixed by the spec): normal 1.00,
wet/humid 1.10, dusty 1.15, coastal 1.20, gas/chemical 1.25,
extreme-climate 1.15. -/
def envFactor : EnvCondition → ℚ
  | .normal => 1
  | .wetHumid => 11 / 10
  | .dusty => 23 / 20
  | .coastal => 6 / 5
  | .gasChemical => 5 / 4
  | .extremeClimate => 23 / 20

/-- Hydrostatic constant: 98.1 pressure units per meter of depth. -/
def hydrostaticConstant : ℚ := 981 / 10

/-- K-factor of a 90° elbow. -/
def elbowK : ℚ := 9 / 10

/-- Rational stand-in for π used in the pipe cross-section. -/
def piApprox : ℚ := 314 / 100

/-- Cross-sectional area of a pipe of diameter `d`. -/
def crossArea (d : ℚ) : ℚ := piApprox * d * d / 4

/-- The altitude the engine uses: forced to exactly 0 when the location
resolves to sea level or a recognized coastal city (taking precedence over
the numeric default), otherwise the supplied altitude or, when omitted, the
reference default. -/
def resolveAltitude (rd : RefData) (a : Answers) : ℚ :=
  if locationIsCoastal a.location then 0
  else (a.altitude.getD rd.defaultAltitude)

/-- Per-tank intermediate values retained in the breakdown. -/
structure TankCalc where
  area : ℚ
  volume : ℚ
  airflow : ℚ
  velocity : ℚ
  static : ℚ
  friction : ℚ
  fitting : ℚ
  diffuser : ℚ
  subtotal : ℚ
  deriving Repr, DecidableEq

/-- Base airflow per application (coefficient table lookup): wastewater
area × 0.25, aquaculture area × 0.002, generic industrial
volume × air-changes-per-hour ÷ 60. -/
def baseAirflow (rd : RefData) (app : Application) (t : Tank) : ℚ :=
  match app with
  | .wasteWater => planArea t * (1 / 4)
  | .fishFarm => planArea t * (1 / 500)
  | .industrial => tankVolume t * rd.airChangesPerHour / 60

/-- Steps 2–6 of the sizing algorithm for a single tank: base airflow,
static pressure, Darcy–Weisbach pipe friction, fitting losses, diffuser
table loss, and their pressure subtotal. -/
def perTank (rd : RefData) (a : Answers) (t : Tank) : TankCalc :=
  let airflow := baseAirflow rd a.application t
  let velocity := airflow / crossArea a.pipe.diameter
  let dynamicP := rd.airDensity * velocity * velocity / 2
  let static := t.depth * hydrostaticConstant * rd.specificGravity
  let friction := rd.frictionFactor * (a.pipe.length / a.pipe.diameter) * dynamicP
  let fitting := (a.pipe.bends : ℚ) * elbowK * dynamicP
  let diffuser := rd.diffuserLoss a.diffuser
  { area := planArea t
    volume := tankVolume t
    airflow := airflow
    velocity := velocity
    static := static
    friction := friction
    fitting := fitting
    diffuser := diffuser
    subtotal := static + friction + fitting + diffuser }

/-- Sum of a head value and a tail of values. -/
def aggSum (x : ℚ) (xs : List ℚ) : ℚ := x + xs.foldl (· + ·) 0

/-- Maximum of a head value and a tail of values. -/
def aggMax (x : ℚ) (xs : List ℚ) : ℚ := xs.foldl max x

/-- Domain errors of the calculation engine (distinct from validation
errors): sizing is impossible for the given inputs. -/
inductive DomainError where
  | noTanks
  | zeroVolumeTank (t : Tank)
  deriving Repr, DecidableEq

/-- A computed requirement with its full breakdown. -/
structure Requirement where
  airflow : ℚ
  pressure : ℚ
  power : ℚ
  perTankCalcs : List TankCalc
  subtotal : ℚ
  altitudeFactor : ℚ
  environmentFactor : ℚ
  velocityWarning : Bool
  deriving Repr, DecidableEq

/-- The success branch of `compute` on a nonempty, volume-checked tank
list: per-tank airflow and pressure subtotals are aggregated by
configuration (parallel: flow sums, pressure is the maximum; series: flow is
unchanged, pressure sums), the subtotal is multiplied by the altitude
correction `1 + altitude/10000` and the environment factor, and the power
estimate is `airflow × pressure / (36000 × efficiency)`. -/
def computeOk (rd : RefData) (a : Answers) (t : Tank) (ts : List Tank) :
    Requirement :=
  let c := perTank rd a t
  let cs := ts.map (perTank rd a)
  let airflowAgg :=
    match a.config with
    | .parallel => aggSum c.airflow (cs.map TankCalc.airflow)
    | .series => aggMax c.airflow (cs.map TankCalc.airflow)
  let subAgg :=
    match a.config with
    | .parallel => aggMax c.subtotal (cs.map TankCalc.subtotal)
    | .series => aggSum c.subtotal (cs.map TankCalc.subtotal)
  let altF := 1 + resolveAltitude rd a / 10000
  let envF := envFactor a.environment
  let pressure := subAgg * altF * envF
  { airflow := airflowAgg
    pressure := pressure
    power := airflowAgg * pressure / (36000 * rd.efficiency)
    perTankCalcs := c :: cs
    subtotal := subAgg
    altitudeFactor := altF
    environmentFactor := envF
    velocityWarning := (c :: cs).any (fun k => (20 : ℚ) < k.velocity) }

/-- Modelled from the spec: `compute(answers) -> Requirement` (§4.3).
Zero-depth or zero-area tanks (and an empty tank list) fail with a domain
error; otherwise the requirement is `computeOk`. -/
def compute (rd : RefData) (a : Answers) : Except DomainError Requirement :=
  match a.tanks with
  | [] => .error .noTanks
  | t :: ts =>
    match (t :: ts).find? (fun tk => planArea tk == 0 || tk.depth == 0) with
    | some tk => .error (.zeroVolumeTank tk)
    | none => .ok (computeOk rd a t ts)

/-! ## Input validator and conversation state machine

Modelled from the spec: the step-by-step conversation handler lives in the
Python sources (`api/chat.py`) that are not packaged; the definitions below
follow §4.1–§4.2 (typed validators with range-carrying errors, a literal
"default" token, enumerated prefix matching, plausible-email check; ordered
steps with an index, no state change on an invalid answer, completion past
the last step, structural errors for malformed caller state). -/

/-- A validated step value. -/
inductive StepValue where
  | num (q : ℚ)
  | choice (s : String)
  | dims (l w d : ℚ)
  | emailAddr (s : String)
  deriving Repr, DecidableEq

/-- A raw user answer (string or primitive) as the validator receives it. -/
inductive RawInput where
  | num (q : ℚ)
  | text (s : String)
  | dims (l w d : ℚ)
  deriving Repr, DecidableEq

/-- The declared constraint of a step. -/
inductive FieldValidator where
  | numRange (lo hi : ℚ)
  | dimsRange (lo hi : ℚ)
  | oneOf (options : List String)
  | emailAddr
  deriving Repr, DecidableEq

/-- Validation failures, each carrying what a retry message needs (the
accepted range, or the valid options). -/
inductive ValidationError where
  | outOfRange (lo hi : ℚ)
  | invalidOption (options : List String)
  | invalidEmail
  | wrongShape
  deriving Repr, DecidableEq

/-- One step definition: key, prompt, validator, optionality, default. -/
structure Step where
  key : String
  prompt : String
  validator : FieldValidator
  optional : Bool
  default : Option StepValue
  deriving Repr, DecidableEq

/-- Case-insensitive exact or unambiguous-prefix match against a fixed
vocabulary. -/
def matchOption (options : List String) (s : String) : Option String :=
  let sl := s.toLower
  match options.filter (fun o => o.toLower == sl) with
  | [o] => some o
  | _ =>
    match options.filter (fun o => sl ≠ "" && o.toLower.startsWith sl) with
    | [o] => some o
    | _ => none

/-- Syntactically plausible email: `local@domain` with a nonempty local
part and at least one dot in the domain. -/
def plausibleEmail (s : String) : Bool :=
  match s.splitOn "@" with
  | [l, d] => l ≠ "" && d.contains '.'
  | _ => false

/-- The non-default path of the validator: numeric and dimension answers
are range-checked and fail with the accepted range (never silently
clamped); enumerated answers use case-insensitive
exact/unambiguous-prefix matching; emails get a plausibility check. -/
def validateStrict : FieldValidator → RawInput → Except ValidationError StepValue
  | .numRange lo hi, .num q =>
    if lo ≤ q ∧ q ≤ hi then .ok (.num q) else .error (.outOfRange lo hi)
  | .dimsRange lo hi, .dims l w d =>
    if (lo ≤ l ∧ l ≤ hi) ∧ (lo ≤ w ∧ w ≤ hi) ∧ (lo ≤ d ∧ d ≤ hi) then
      .ok (.dims l w d)
    else .error (.outOfRange lo hi)
  | .oneOf options, .text s =>
    match matchOption options s with
    | some o => .ok (.choice o)
    | none => .error (.invalidOption options)
  | .emailAddr, .text s =>
    if plausibleEmail s then .ok (.emailAddr s) else .error .invalidEmail
  | _, _ => .error .wrongShape

/-- Modelled from the spec: the input validator (§4.1).  A literal
`"default"` answer short-circuits to the step's default when one is
declared; everything else goes through the strict validator. -/
def validate (step : Step) (raw : RawInput) : Except ValidationError StepValue :=
  match step.default with
  | some d =>
    if raw = .text "default" then .ok d else validateStrict step.validator raw
  | none => validateStrict step.validator raw

/-- Caller-echoed conversation state. -/
structure ConvState where
  current_step_index : ℕ
  answers : List (String × StepValue)
  completed : Bool
  deriving Repr, DecidableEq

/-- What one state-machine call reports back alongside the state. -/
inductive Reply where
  | accepted
  | invalid (e : ValidationError) (prompt : String)
  | alreadyComplete
  | structural
  deriving Repr, DecidableEq

/-- Modelled from the spec: the state-machine transition (§4.2).  A call
after completion is a no-op returning the already-complete state; an index
past the step list is a structural error (malformed caller state); an
invalid answer leaves the state unchanged and returns the validation
failure together with the original prompt; a valid answer records the value
and advances, completing past the last step. -/
def advance (steps : List Step) (st : ConvState) (raw : RawInput) :
    ConvState × Reply :=
  if st.completed then (st, .alreadyComplete)
  else
    match steps[st.current_step_index]? with
    | none => (st, .structural)
    | some step =>
      match validate step raw with
      | .error e => (st, .invalid e step.prompt)
      | .ok v =>
        let i := st.current_step_index + 1
        ({ current_step_index := i
           answers := st.answers ++ [(step.key, v)]
           completed := decide (steps.length ≤ i) }, .accepted)

/-- The ordered Crelec step sequence (§3): operation, altitude/location,
application, environment, tank configuration, tank dimensions, pipe
specification, diffuser type, contact email. -/
def crelecSteps : List Step :=
  [ { key := "operation"
      prompt := "Is this for compression or vacuum?"
      validator := .oneOf ["compression", "vacuum"]
      optional := false
      default := none }
  , { key := "altitude"
      prompt := "What is your altitude or location?"
      validator := .numRange 0 5000
      optional := true
      default := some (.num 500) }
  , { key := "application"
      prompt := "What is the application?"
      validator := .oneOf ["waste_water", "fish_farm", "industrial"]
      optional := false
      default := none }
  , { key := "environment"
      prompt := "What is the operating environment?"
      validator := .oneOf
        ["normal", "wet", "dusty", "coastal", "gas", "extreme"]
      optional := true
      default := some (.choice "normal") }
  , { key := "tank_config"
      prompt := "How many tanks, in series or parallel?"
      validator := .oneOf ["single", "series", "parallel"]
      optional := true
      default := some (.choice "single") }
  , { key := "tank_dims"
      prompt := "Please enter the tank length, width and depth in meters:"
      validator := .dimsRange (1 / 10) 50
      optional := false
      default := none }
  , { key := "pipe_spec"
      prompt := "What is the pipe diameter in mm?"
      validator := .numRange 10 1000
      optional := true
      default := some (.num 50) }
  , { key := "diffuser"
      prompt := "Which diffuser type will you use?"
      validator := .oneOf ["fine", "disc", "coarse", "tube"]
      optional := true
      default := some (.choice "fine") }
  , { key := "email"
      prompt := "Where should we email your quote?"
      validator := .emailAddr
      optional := false
      default := none } ]

/-! ## Matching engine

Modelled from the spec: the product scorer of the chat handler is not among
the packaged sources; the definitions below follow §4.4 (category scores
100/80/70, exclusion of products that cannot cover the requirement, +5
in-stock bonus, descending-score ordering with ascending-price and stable
catalog-order tie-breaks, top 3 returned).  The unstated over-specified
margin is fixed at 50% above the requirement. -/

/-- Stock states of a catalog row. -/
inductive StockState where
  | in_stock
  | low_stock
  | on_order
  deriving Repr, DecidableEq

/-- A catalog product as the matching engine reads it. -/
structure Product where
  model : String
  airflow_min : ℚ
  airflow_max : ℚ
  pressure_min : ℚ
  pressure_max : ℚ
  power : ℚ
  price : ℚ
  stock : StockState
  deriving Repr, DecidableEq

/-- Base scoring categories. -/
inductive MatchCategory where
  | perfect
  | overSpecified
  | higherCapacity
  deriving Repr, DecidableEq

/-- Base score of a category: perfect 100, over-specified 80,
higher-capacity 70. -/
def baseScore : MatchCategory → ℚ
  | .perfect => 100
  | .overSpecified => 80
  | .higherCapacity => 70

/-- The margin bounding the over-specified band: a product minimum at most
1.5 × the requirement counts as over-specified, beyond that as a
higher-capacity alternative. -/
def overMargin : ℚ := 3 / 2

/-- Whether the product can cover the requirement at all (its maxima reach
the required airflow and pressure); products failing this are not
candidates. -/
def canCover (req : Requirement) (p : Product) : Bool :=
  req.airflow ≤ p.airflow_max && req.pressure ≤ p.pressure_max

/-- Scoring-category classification of one product against the requirement
(`none` when the product cannot cover the requirement). -/
def categorize (req : Requirement) (p : Product) : Option MatchCategory :=
  if ¬ canCover req p then none
  else if p.airflow_min ≤ req.airflow && p.pressure_min ≤ req.pressure then
    some .perfect
  else if p.airflow_min ≤ req.airflow * overMargin &&
      p.pressure_min ≤ req.pressure * overMargin then
    some .overSpecified
  else
    some .higherCapacity

/-- Fixed in-stock score bonus. -/
def stockBonus (p : Product) : ℚ :=
  if p.stock = .in_stock then 5 else 0

/-- One ranked entry. -/
structure MatchResult where
  product : Product
  category : MatchCategory
  score : ℚ
  stock_bonus_applied : Bool
  deriving Repr, DecidableEq

/-- Builds the match result of a categorized product. -/
def mkMatchResult (p : Product) (c : MatchCategory) : MatchResult :=
  { product := p
    category := c
    score := baseScore c + stockBonus p
    stock_bonus_applied := p.stock = .in_stock }

/-- The unranked candidate list in catalog order (non-covering products are
dropped here, not scored at zero). -/
def candidates (req : Requirement) (catalog : List Product) : List MatchResult :=
  catalog.filterMap (fun p => (categorize req p).map (mkMatchResult p))

/-- `a` strictly outranks `b`: higher final score, or equal score and
strictly lower price. -/
def outranks (a b : MatchResult) : Bool :=
  b.score < a.score || (a.score == b.score && a.product.price < b.product.price)

/-- `a` may be placed no later than `b`: `b` does not strictly outrank
`a`. -/
def rankLE (a b : MatchResult) : Prop :=
  outranks b a = false

/-- Stable ranked insertion: the new element goes after every element that
strictly outranks it and before everything else (so earlier catalog entries
stay first on ties). -/
def insertRanked (x : MatchResult) : List MatchResult → List MatchResult
  | [] => [x]
  | h :: t => if outranks h x then h :: insertRanked x t else x :: h :: t

/-- Stable insertion sort by descending score then ascending price. -/
def sortRanked : List MatchResult → List MatchResult
  | [] => []
  | h :: t => insertRanked h (sortRanked t)

/-- Modelled from the spec: the full ranked set the engine computes
internally (§4.4). -/
def matchAll (req : Requirement) (catalog : List Product) : List MatchResult :=
  sortRanked (candidates req catalog)

/-- Modelled from the spec: `match(requirement, catalog)` — the top three of
the full ranked set. -/
def matchTop (req : Requirement) (catalog : List Product) : List MatchResult :=
  (matchAll req catalog).take 3

/-! ## Concrete inputs used by the theorems -/

/-- The 6 m × 3 m × 2 m tank of the spec's concrete scenario. -/
def scenarioTank : Tank := { length := 6, width := 3, depth := 2 }

/-- The completed answer set of the spec's concrete scenario: wastewater,
sea level, normal environment, a single 6×3×2 tank, no pipe run and no
bends. -/
def scenarioAnswers : Answers :=
  { operation := .compression
    altitude := none
    location := .seaLevel
    application := .wasteWater
    environment := .normal
    config := .parallel
    tanks := [scenarioTank]
    pipe := { diameter := 50, length := 0, bends := 0 }
    diffuser := .fineBubble
    email := "user@example.com" }

/-- Reference data whose diffuser table contributes no loss (the scenario
stipulates zero diffuser losses). -/
def zeroDiffuserRefData : RefData :=
  { defaultRefData with diffuserLoss := fun _ => 0 }

/-- A tank with zero depth (for the domain-error theorems). -/
def zeroDepthTank : Tank := { length := 6, width := 3, depth := 0 }

/-- An answer set containing a zero-depth tank. -/
def zeroDepthAnswers : Answers :=
  { scenarioAnswers with tanks := [zeroDepthTank] }

/-- The conversation state awaiting the tank-dimensions step with the
earlier answers already collected. -/
def tankDimsState : ConvState :=
  { current_step_index := 5
    answers :=
      [ ("operation", .choice "compression")
      , ("altitude", .num 0)
      , ("application", .choice "waste_water")
      , ("environment", .choice "normal")
      , ("tank_config", .choice "single") ]
    completed := false }

/-- A requirement used to exercise the matching engine. -/
def reqW : Requirement :=
  { airflow := 10
    pressure := 100
    power := 1
    perTankCalcs := []
    subtotal := 100
    altitudeFactor := 1
    environmentFactor := 1
    velocityWarning := false }

/-- A perfect-match product that is on back order. -/
def perfectOOS : Product :=
  { model := "PM-100"
    airflow_min := 5
    airflow_max := 20
    pressure_min := 50
    pressure_max := 200
    power := 3
    price := 1000
    stock := .on_order }

/-- An over-specified product that is in stock. -/
def overIS : Product :=
  { model := "OS-200"
    airflow_min := 12
    airflow_max := 30
    pressure_min := 120
    pressure_max := 300
    power := 5
    price := 900
    stock := .in_stock }

/-- A product that cannot cover the requirement at all. -/
def tooSmall : Product :=
  { model := "XS-10"
    airflow_min := 1
    airflow_max := 4
    pressure_min := 10
    pressure_max := 50
    power := 1
    price := 100
    stock := .in_stock }

/-- A small catalog (in catalog order) with the over-specified in-stock
product listed before the perfect-match back-ordered one. -/
def catW : List Product := [overIS, tooSmall, perfectOOS]

/-- What C10 claims the displayed airflow to be (airflow_m3_min when
present, else airflow_min divided by 60, else 0); compare with
`displayedAirflow`, which embeds what the code does. -/
def claimedAirflowC10 (p : JSProduct) : ℚ :=
  match p.airflow_m3_min with
  | some v => v
  | none =>
    match p.airflow_min with
    | some w => w / 60
    | none => 0

/-- An old-format catalog product: per-hour range fields only, no
`airflow_m3_min`, no `airflow`, no `pressure`. -/
def oldFormatProduct : JSProduct :=
  { emptyJSProduct with
    model := "CB-210"
    airflow_min := some 120
    airflow_max := some 180
    pressure_min := some 100
    pressure_max := some 200
    power := some 2
    price := some 5000 }

/-- A one-product quote around `oldFormatProduct`. -/
def oldFormatQuote : QuoteData :=
  { quote_id := "Q-1"
    customer_data :=
      { email := "user@example.com"
        application := some "waste_water"
        length := some 6
        width := some 3
        height := some 2
        altitude := some 0 }
    calculation :=
      { tank_volume := 36
        airflow_required := 9 / 2
        airflow_required_hr := none
        pressure_required := 981 / 5
        power_estimate := 1 }
    products := [{ match_type := "Over-Specified", product := oldFormatProduct }] }

end Crelec

namespace Crelec

/-! ## Helper lemmas for the calculation engine -/

/-- The zero-volume scan finds nothing on a list of well-formed tanks. -/
lemma find?_badTank_eq_none {l : List Tank}
    (h : ∀ x ∈ l, planArea x ≠ 0 ∧ x.depth ≠ 0) :
    l.find? (fun tk => planArea tk == 0 || tk.depth == 0) = none := by
  rw [List.find?_eq_none]
  intro x hx
  simp [(h x hx).1, (h x hx).2]

/-- `compute` succeeds on a nonempty list of well-formed tanks and returns
exactly the `computeOk` aggregation. -/
lemma compute_eq_ok (rd : RefData) (a : Answers) (t : Tank) (ts : List Tank)
    (ht : a.tanks = t :: ts)
    (h : ∀ x ∈ t :: ts, planArea x ≠ 0 ∧ x.depth ≠ 0) :
    compute rd a = .ok (computeOk rd a t ts) := by
  unfold compute
  rw [ht]
  simp [find?_badTank_eq_none h]

/-- A successful `compute` result always is a `computeOk` aggregation of a
nonempty tank list. -/
lemma compute_ok_inv {rd : RefData} {a : Answers} {r : Requirement}
    (h : compute rd a = .ok r) :
    ∃ t ts, a.tanks = t :: ts ∧ r = computeOk rd a t ts := by
  unfold compute at h
  cases ht : a.tanks with
  | nil => rw [ht] at h; simp at h
  | cons t ts =>
    rw [ht] at h
    cases hf : (t :: ts).find? (fun tk => planArea tk == 0 || tk.depth == 0) with
    | some tk => simp [hf] at h
    | none =>
      simp only [hf] at h
      simp at h
      exact ⟨t, ts, rfl, h.symm⟩

/-- The initial value bounds a `max`-fold from below. -/
lemma le_foldl_max (xs : List ℚ) : ∀ x : ℚ, x ≤ xs.foldl max x := by
  induction xs with
  | nil => intro x; simp
  | cons y t ih =>
    intro x
    calc x ≤ max x y := le_max_left x y
    _ ≤ (t.foldl max (max x y)) := ih (max x y)

/-- A sum-fold of nonnegative values from a nonnegative start stays
nonnegative. -/
lemma foldl_add_nonneg (xs : List ℚ) :
    ∀ x : ℚ, 0 ≤ x → (∀ y ∈ xs, 0 ≤ y) → 0 ≤ xs.foldl (· + ·) x := by
  induction xs with
  | nil => intro x hx _; simpa using hx
  | cons y t ih =>
    intro x hx hall
    refine ih (x + y) (by
      have := hall y (by simp)
      linarith) (fun z hz => hall z (by simp [hz]))

/-- Every environment multiplier of the fixed table is positive. -/
lemma envFactor_pos (e : EnvCondition) : 0 < envFactor e := by
  cases e <;> norm_num [envFactor]

/-- A tank of positive depth has a positive pressure subtotal whenever the
reference data is physically sensible. -/
lemma perTank_subtotal_pos (rd : RefData) (a : Answers) (tk : Tank)
    (hd : 0 < tk.depth) (hsg : 0 < rd.specificGravity)
    (hf : 0 ≤ rd.frictionFactor) (hρ : 0 ≤ rd.airDensity)
    (hl : 0 ≤ a.pipe.length) (hdi : 0 ≤ a.pipe.diameter)
    (hdiff : 0 ≤ rd.diffuserLoss a.diffuser) :
    0 < (perTank rd a tk).subtotal := by
  have hstatic : 0 < tk.depth * hydrostaticConstant * rd.specificGravity := by
    have : (0:ℚ) < hydrostaticConstant := by norm_num [hydrostaticConstant]
    positivity
  have hdyn : 0 ≤ rd.airDensity *
      (baseAirflow rd a.application tk / crossArea a.pipe.diameter) *
      (baseAirflow rd a.application tk / crossArea a.pipe.diameter) / 2 := by
    have h2 := mul_self_nonneg
      (baseAirflow rd a.application tk / crossArea a.pipe.diameter)
    nlinarith
  have hfric : 0 ≤ rd.frictionFactor * (a.pipe.length / a.pipe.diameter) *
      (rd.airDensity *
        (baseAirflow rd a.application tk / crossArea a.pipe.diameter) *
        (baseAirflow rd a.application tk / crossArea a.pipe.diameter) / 2) := by
    have : 0 ≤ a.pipe.length / a.pipe.diameter := div_nonneg hl hdi
    positivity
  have hfit : 0 ≤ (a.pipe.bends : ℚ) * elbowK *
      (rd.airDensity *
        (baseAirflow rd a.application tk / crossArea a.pipe.diameter) *
        (baseAirflow rd a.application tk / crossArea a.pipe.diameter) / 2) := by
    have : (0:ℚ) ≤ elbowK := by norm_num [elbowK]
    positivity
  simp only [perTank]
  linarith

/-- The total pressure of a computed requirement is its subtotal times the
altitude factor times the environment factor. -/
lemma computeOk_pressure_eq (rd : RefData) (a : Answers) (t : Tank)
    (ts : List Tank) :
    (computeOk rd a t ts).pressure =
      (computeOk rd a t ts).subtotal * (1 + resolveAltitude rd a / 10000) *
        envFactor a.environment := by
  simp [computeOk]

/-- The aggregated pressure subtotal is positive for positive-depth tanks
and sensible reference data, in both configurations. -/
lemma computeOk_subtotal_pos (rd : RefData) (a : Answers) (t : Tank)
    (ts : List Tank) (hall : ∀ x ∈ t :: ts, 0 < x.depth)
    (hsg : 0 < rd.specificGravity) (hf : 0 ≤ rd.frictionFactor)
    (hρ : 0 ≤ rd.airDensity) (hl : 0 ≤ a.pipe.length) (hdi : 0 ≤ a.pipe.diameter)
    (hdiff : 0 ≤ rd.diffuserLoss a.diffuser) :
    0 < (computeOk rd a t ts).subtotal := by
  have hc : 0 < (perTank rd a t).subtotal :=
    perTank_subtotal_pos rd a t (hall t (by simp)) hsg hf hρ hl hdi hdiff
  have hcs : ∀ s ∈ (ts.map (perTank rd a)).map TankCalc.subtotal, 0 ≤ s := by
    intro s hs
    simp only [List.map_map, List.mem_map, Function.comp] at hs
    obtain ⟨x, hx, hxs⟩ := hs
    have := perTank_subtotal_pos rd a x (hall x (by simp [hx])) hsg hf hρ hl hdi hdiff
    rw [← hxs] at *
    linarith
  cases hcfg : a.config with
  | parallel =>
    simp only [computeOk, hcfg]
    calc (0:ℚ) < (perTank rd a t).subtotal := hc
    _ ≤ aggMax (perTank rd a t).subtotal
        ((ts.map (perTank rd a)).map TankCalc.subtotal) := le_foldl_max _ _
  | series =>
    simp only [computeOk, hcfg]
    have h0 : 0 ≤ ((ts.map (perTank rd a)).map TankCalc.subtotal).foldl (· + ·) 0 :=
      foldl_add_nonneg _ 0 le_rfl hcs
    simp only [aggSum]
    linarith

/-! ## Claim theorems for the calculation engine -/

/-- C1: for a completed answer set with a single 6 m × 3 m × 2 m tank,
wastewater application, sea level, normal environment and zero
pipe/fitting/diffuser losses, `compute` returns airflow 18 × 0.25 = 4.5,
static pressure 2 × 98.1 = 196.2, and total pressure 196.2 (altitude and
environment factors both 1). -/
theorem compute_wastewater_scenario :
    ∃ r : Requirement, compute zeroDiffuserRefData scenarioAnswers = .ok r ∧
      r.airflow = 45 / 10 ∧
      r.perTankCalcs.map TankCalc.static = [1962 / 10] ∧
      r.subtotal = 1962 / 10 ∧
      r.altitudeFactor = 1 ∧ r.environmentFactor = 1 ∧
      r.pressure = 1962 / 10 := by
  have hfind : List.find? (fun tk => planArea tk == 0 || tk.depth == 0)
      [scenarioTank] = none :=
    find?_badTank_eq_none (by
      intro x hx
      simp only [List.mem_singleton] at hx
      subst hx
      norm_num [planArea, scenarioTank])
  norm_num [compute, scenarioAnswers, hfind, computeOk, perTank, baseAirflow,
    planArea, tankVolume, aggSum, aggMax, resolveAltitude, locationIsCoastal,
    envFactor, hydrostaticConstant, crossArea, piApprox, elbowK,
    zeroDiffuserRefData, defaultRefData, scenarioTank]

/-- C7: a completed answer set containing a tank of zero depth or zero plan
area makes `compute` fail with a domain error (a `DomainError`, a type
distinct from `ValidationError`) instead of returning a requirement. -/
theorem compute_zero_tank_domain_error (rd : RefData) (a : Answers) (t : Tank)
    (hmem : t ∈ a.tanks) (hzero : planArea t = 0 ∨ t.depth = 0) :
    ∃ e : DomainError, compute rd a = .error e := by
  obtain ⟨t0, ts, ht⟩ : ∃ t0 ts, a.tanks = t0 :: ts := by
    cases h : a.tanks with
    | nil => rw [h] at hmem; simp at hmem
    | cons t0 ts => exact ⟨t0, ts, rfl⟩
  have hfind : ((t0 :: ts).find?
      (fun tk => planArea tk == 0 || tk.depth == 0)).isSome := by
    rw [List.find?_isSome]
    refine ⟨t, ht ▸ hmem, ?_⟩
    rcases hzero with h | h <;> simp [h]
  obtain ⟨tk, htk⟩ := Option.isSome_iff_exists.mp hfind
  refine ⟨.zeroVolumeTank tk, ?_⟩
  unfold compute
  rw [ht]
  simp [htk]

/-- Witness for C7 at a concrete zero-depth tank. -/
theorem compute_zero_tank_domain_error_witness :
    ∃ e : DomainError, compute defaultRefData zeroDepthAnswers = .error e :=
  compute_zero_tank_domain_error defaultRefData zeroDepthAnswers zeroDepthTank
    (by simp [zeroDepthAnswers]) (Or.inr rfl)

/-- C2: for two identical tanks and otherwise equal inputs, the parallel
configuration keeps the single-tank pressure and doubles the airflow while
the series configuration doubles the pressure and keeps the airflow. -/
theorem compute_two_tank_aggregation (rd : RefData) (a : Answers) (t : Tank)
    (harea : planArea t ≠ 0) (hdepth : t.depth ≠ 0) :
    ∃ r1 rP rS : Requirement,
      compute rd { a with tanks := [t], config := .parallel } = .ok r1 ∧
      compute rd { a with tanks := [t, t], config := .parallel } = .ok rP ∧
      compute rd { a with tanks := [t, t], config := .series } = .ok rS ∧
      rP.pressure = r1.pressure ∧ rP.airflow = 2 * r1.airflow ∧
      rS.pressure = 2 * r1.pressure ∧ rS.airflow = r1.airflow := by
  have hone : ∀ x ∈ [t], planArea x ≠ 0 ∧ x.depth ≠ 0 := by
    intro x hx
    simp only [List.mem_singleton] at hx
    subst hx
    exact ⟨harea, hdepth⟩
  have htwo : ∀ x ∈ [t, t], planArea x ≠ 0 ∧ x.depth ≠ 0 := by
    intro x hx
    simp only [List.mem_cons, List.mem_singleton, List.not_mem_nil, or_false] at hx
    rcases hx with h | h <;> (subst h; exact ⟨harea, hdepth⟩)
  have h1 := compute_eq_ok rd { a with tanks := [t], config := .parallel } t []
    rfl hone
  have hP := compute_eq_ok rd { a with tanks := [t, t], config := .parallel } t [t]
    rfl htwo
  have hS := compute_eq_ok rd { a with tanks := [t, t], config := .series } t [t]
    rfl htwo
  refine ⟨_, _, _, h1, hP, hS, ?_, ?_, ?_, ?_⟩ <;>
    simp [computeOk, aggSum, aggMax, perTank, resolveAltitude, max_self] <;> ring

/-- Witness for C2 at the concrete scenario tank. -/
theorem compute_two_tank_aggregation_witness :
    ∃ r1 rP rS : Requirement,
      compute defaultRefData
          { scenarioAnswers with tanks := [scenarioTank], config := .parallel } =
        .ok r1 ∧
      compute defaultRefData
          { scenarioAnswers with
            tanks := [scenarioTank, scenarioTank]
            config := .parallel } = .ok rP ∧
      compute defaultRefData
          { scenarioAnswers with
            tanks := [scenarioTank, scenarioTank]
            config := .series } = .ok rS ∧
      rP.pressure = r1.pressure ∧ rP.airflow = 2 * r1.airflow ∧
      rS.pressure = 2 * r1.pressure ∧ rS.airflow = r1.airflow :=
  compute_two_tank_aggregation defaultRefData scenarioAnswers scenarioTank
    (by norm_num [planArea, scenarioTank]) (by norm_num [scenarioTank])

/-- C3: the altitude correction multiplies the pressure subtotal by
`1 + altitude/10000`; a sea-level/coastal location forces the altitude to
exactly 0 (overriding the numeric default, so an explicit altitude 0 and an
omitted altitude with a sea-level location compute identically); and with
identical other inputs the pressure at altitude 1000 is strictly greater
than at altitude 0. -/
theorem compute_altitude_correction :
    (∀ (rd : RefData) (a : Answers),
      compute rd { a with altitude := some 0, location := .inland } =
        compute rd { a with altitude := none, location := .seaLevel })
  ∧ (∀ (rd : RefData) (a : Answers) (r : Requirement), compute rd a = .ok r →
      r.altitudeFactor = 1 + resolveAltitude rd a / 10000 ∧
      r.pressure = r.subtotal * r.altitudeFactor * r.environmentFactor ∧
      (locationIsCoastal a.location = true → resolveAltitude rd a = 0))
  ∧ (∀ (rd : RefData) (a : Answers),
      a.location = .inland →
      (∀ x ∈ a.tanks, 0 < planArea x ∧ 0 < x.depth) →
      a.tanks ≠ [] →
      0 < rd.specificGravity → 0 ≤ rd.frictionFactor → 0 ≤ rd.airDensity →
      0 ≤ a.pipe.length → 0 ≤ a.pipe.diameter →
      0 ≤ rd.diffuserLoss a.diffuser →
      ∃ r1 r0 : Requirement,
        compute rd { a with altitude := some 1000 } = .ok r1 ∧
        compute rd { a with altitude := some 0 } = .ok r0 ∧
        r0.pressure < r1.pressure) := by
  refine ⟨?_, ?_, ?_⟩
  · intro rd a
    rfl
  · intro rd a r h
    obtain ⟨t, ts, ht, hr⟩ := compute_ok_inv h
    subst hr
    refine ⟨by simp [computeOk], by simp [computeOk], ?_⟩
    intro hc
    simp [resolveAltitude, hc]
  · intro rd a hloc htanks hne hsg hf hρ hl hdi hdiff
    obtain ⟨t, ts, ht⟩ : ∃ t ts, a.tanks = t :: ts := by
      cases h : a.tanks with
      | nil => exact absurd h hne
      | cons t ts => exact ⟨t, ts, rfl⟩
    have hok : ∀ x ∈ t :: ts, planArea x ≠ 0 ∧ x.depth ≠ 0 := by
      intro x hx
      have := htanks x (ht ▸ hx)
      exact ⟨ne_of_gt this.1, ne_of_gt this.2⟩
    have h1000 := compute_eq_ok rd { a with altitude := some 1000 } t ts
      (by simpa using ht) hok
    have h0 := compute_eq_ok rd { a with altitude := some 0 } t ts
      (by simpa using ht) hok
    refine ⟨_, _, h1000, h0, ?_⟩
    have hdep : ∀ x ∈ t :: ts, 0 < x.depth := by
      intro x hx
      exact (htanks x (ht ▸ hx)).2
    have hpos0 : 0 < (computeOk rd { a with altitude := some 0 } t ts).subtotal :=
      computeOk_subtotal_pos rd _ t ts hdep hsg hf hρ hl hdi hdiff
    have hsub : (computeOk rd { a with altitude := some 1000 } t ts).subtotal =
        (computeOk rd { a with altitude := some 0 } t ts).subtotal := rfl
    have hE : 0 < envFactor a.environment := envFactor_pos _
    have hr1000 : resolveAltitude rd { a with altitude := some 1000 } = 1000 := by
      simp [resolveAltitude, locationIsCoastal, hloc]
    have hr0 : resolveAltitude rd { a with altitude := some 0 } = 0 := by
      simp [resolveAltitude, locationIsCoastal, hloc]
    rw [computeOk_pressure_eq, computeOk_pressure_eq, hsub, hr1000, hr0]
    dsimp only
    nlinarith [mul_pos hpos0 hE]

/-- Witness for C3, part 3, at the concrete scenario moved inland. -/
theorem compute_altitude_correction_witness :
    ∃ r1 r0 : Requirement,
      compute defaultRefData
          { scenarioAnswers with location := .inland, altitude := some 1000 } =
        .ok r1 ∧
      compute defaultRefData
          { scenarioAnswers with location := .inland, altitude := some 0 } =
        .ok r0 ∧
      r0.pressure < r1.pressure :=
  compute_altitude_correction.2.2 defaultRefData
    { scenarioAnswers with location := .inland } rfl
    (by
      intro x hx
      simp only [scenarioAnswers, List.mem_singleton] at hx
      subst hx
      norm_num [planArea, scenarioTank])
    (by simp [scenarioAnswers])
    (by norm_num [defaultRefData])
    (by norm_num [defaultRefData])
    (by norm_num [defaultRefData])
    (by norm_num [scenarioAnswers])
    (by norm_num [scenarioAnswers])
    (by norm_num [defaultRefData, standardDiffuserLoss, scenarioAnswers])

end Crelec

namespace Crelec

/-! ## Claim theorems for the state machine -/

/-- C6: an answer that fails validation for the awaited step leaves the
conversation state (step index and collected answers) unchanged and returns
the validation error together with the original prompt; in particular an
out-of-range tank dimension yields an error carrying the accepted range. -/
theorem advance_invalid_preserves_state :
    (∀ (steps : List Step) (st : ConvState) (raw : RawInput) (step : Step)
      (e : ValidationError),
      st.completed = false →
      steps[st.current_step_index]? = some step →
      validate step raw = .error e →
      advance steps st raw = (st, .invalid e step.prompt))
  ∧ (∀ (lo hi l w d : ℚ) (key prompt : String) (opt : Bool),
      ¬ ((lo ≤ l ∧ l ≤ hi) ∧ (lo ≤ w ∧ w ≤ hi) ∧ (lo ≤ d ∧ d ≤ hi)) →
      validate
        { key := key, prompt := prompt, validator := .dimsRange lo hi,
          optional := opt, default := none } (.dims l w d) =
        .error (.outOfRange lo hi)) := by
  constructor
  · intro steps st raw step e hc hstep hv
    simp [advance, hc, hstep, hv]
  · intro lo hi l w d key prompt opt hnot
    simp [validate, validateStrict, hnot]

/-- Witness for C6: a 100 m tank depth against the 0.1–50 m bound leaves the
tank-dimensions state untouched and reports the accepted range. -/
theorem advance_invalid_preserves_state_witness :
    advance crelecSteps tankDimsState (.dims 6 3 100) =
      (tankDimsState,
        .invalid (.outOfRange (1 / 10) 50)
          "Please enter the tank length, width and depth in meters:") :=
  advance_invalid_preserves_state.1 crelecSteps tankDimsState (.dims 6 3 100) _
    (.outOfRange (1 / 10) 50) rfl rfl
    (advance_invalid_preserves_state.2 (1 / 10) 50 6 3 100 "tank_dims"
      "Please enter the tank length, width and depth in meters:" false
      (by norm_num))

/-! ## Helper lemmas for the matching engine -/

/-- Unfolds the strict-outranking test. -/
lemma outranks_eq_true_iff {a b : MatchResult} :
    outranks a b = true ↔
      b.score < a.score ∨
        (a.score = b.score ∧ a.product.price < b.product.price) := by
  simp [outranks]

/-- Negation of the strict-outranking test. -/
lemma outranks_eq_false_iff {a b : MatchResult} :
    outranks a b = false ↔
      a.score ≤ b.score ∧
        (a.score = b.score → b.product.price ≤ a.product.price) := by
  rw [← Bool.not_eq_true, outranks_eq_true_iff]
  push_neg
  rfl

/-- The placement preorder in score/price terms. -/
lemma rankLE_iff {a b : MatchResult} :
    rankLE a b ↔
      b.score ≤ a.score ∧
        (b.score = a.score → a.product.price ≤ b.product.price) := by
  rw [rankLE, outranks_eq_false_iff]

/-- The placement preorder is transitive. -/
lemma rankLE_trans {a b c : MatchResult} (h1 : rankLE a b) (h2 : rankLE b c) :
    rankLE a c := by
  rw [rankLE_iff] at *
  obtain ⟨hs1, hp1⟩ := h1
  obtain ⟨hs2, hp2⟩ := h2
  refine ⟨le_trans hs2 hs1, fun he => ?_⟩
  have hb1 : b.score = a.score := le_antisymm (by linarith) (by linarith)
  have hb2 : c.score = b.score := by linarith [hb1]
  exact le_trans (hp1 hb1) (hp2 hb2)

/-- Strict outranking implies placement before. -/
lemma rankLE_of_outranks {a b : MatchResult} (h : outranks a b = true) :
    rankLE a b := by
  rw [outranks_eq_true_iff] at h
  rw [rankLE_iff]
  rcases h with h | ⟨hs, hp⟩
  · exact ⟨le_of_lt h, fun he => absurd he (by linarith)⟩
  · exact ⟨le_of_eq hs.symm, fun _ => le_of_lt hp⟩

/-- Membership through ranked insertion. -/
lemma mem_insertRanked {x y : MatchResult} {l : List MatchResult} :
    y ∈ insertRanked x l ↔ y = x ∨ y ∈ l := by
  induction l with
  | nil => simp [insertRanked]
  | cons h t ih =>
    by_cases hc : outranks h x = true
    · simp only [insertRanked, if_pos hc, List.mem_cons, ih]
      tauto
    · simp only [insertRanked, if_neg hc, List.mem_cons]

/-- Ranked insertion preserves sortedness. -/
lemma pairwise_insertRanked {x : MatchResult} {l : List MatchResult}
    (hl : l.Pairwise rankLE) : (insertRanked x l).Pairwise rankLE := by
  induction l with
  | nil => simp [insertRanked]
  | cons h t ih =>
    rw [List.pairwise_cons] at hl
    by_cases hc : outranks h x = true
    · rw [insertRanked, if_pos hc, List.pairwise_cons]
      refine ⟨fun y hy => ?_, ih hl.2⟩
      rcases mem_insertRanked.mp hy with rfl | hyt
      · exact rankLE_of_outranks hc
      · exact hl.1 y hyt
    · rw [insertRanked, if_neg hc, List.pairwise_cons]
      have hxh : rankLE x h := by
        rw [rankLE]
        exact Bool.not_eq_true _ ▸ (Bool.eq_false_iff.mpr hc)
      refine ⟨fun y hy => ?_, List.pairwise_cons.mpr hl⟩
      rcases List.mem_cons.mp hy with rfl | hyt
      · exact hxh
      · exact rankLE_trans hxh (hl.1 y hyt)

/-- The ranked list is sorted by the placement preorder. -/
lemma pairwise_sortRanked (l : List MatchResult) :
    (sortRanked l).Pairwise rankLE := by
  induction l with
  | nil => simp [sortRanked]
  | cons h t ih => exact pairwise_insertRanked ih

/-- Sorting neither adds nor removes entries. -/
lemma mem_sortRanked {y : MatchResult} {l : List MatchResult} :
    y ∈ sortRanked l ↔ y ∈ l := by
  induction l with
  | nil => simp [sortRanked]
  | cons h t ih => simp [sortRanked, mem_insertRanked, ih]

/-- Two entries with equal score and price never strictly outrank each
other. -/
lemma outranks_eq_false_of_same_key {a b : MatchResult}
    (hs : a.score = b.score) (hp : a.product.price = b.product.price) :
    outranks a b = false := by
  simp [outranks, hs, hp]

/-- Stability of ranked insertion: restricted to any fixed score/price key,
insertion prepends the new element exactly when it carries that key. -/
lemma filter_key_insertRanked (x : MatchResult) (l : List MatchResult) (s pr : ℚ) :
    (insertRanked x l).filter (fun m => m.score == s && m.product.price == pr) =
      if x.score == s && x.product.price == pr then
        x :: l.filter (fun m => m.score == s && m.product.price == pr)
      else l.filter (fun m => m.score == s && m.product.price == pr) := by
  induction l with
  | nil =>
    by_cases hx : (x.score == s && x.product.price == pr) = true <;>
      simp [insertRanked, hx]
  | cons h t ih =>
    by_cases hc : outranks h x = true
    · by_cases hh : (h.score == s && h.product.price == pr) = true
      · by_cases hx : (x.score == s && x.product.price == pr) = true
        · exfalso
          have hh2 : h.score = s ∧ h.product.price = pr := by
            simpa [Bool.and_eq_true, beq_iff_eq] using hh
          have hx2 : x.score = s ∧ x.product.price = pr := by
            simpa [Bool.and_eq_true, beq_iff_eq] using hx
          have : outranks h x = false :=
            outranks_eq_false_of_same_key (hh2.1.trans hx2.1.symm)
              (hh2.2.trans hx2.2.symm)
          rw [this] at hc
          exact Bool.false_ne_true hc
        · simp [insertRanked, hc, hh, hx, ih]
      · simp [insertRanked, hc, hh, ih]
    · by_cases hx : (x.score == s && x.product.price == pr) = true <;>
        simp [insertRanked, hc, hx]

/-- Stability of the ranked sort: equal-key entries keep their original
(catalog) order. -/
lemma filter_key_sortRanked (l : List MatchResult) (s pr : ℚ) :
    (sortRanked l).filter (fun m => m.score == s && m.product.price == pr) =
      l.filter (fun m => m.score == s && m.product.price == pr) := by
  induction l with
  | nil => rfl
  | cons h t ih =>
    rw [sortRanked, filter_key_insertRanked]
    by_cases hh : (h.score == s && h.product.price == pr) = true <;>
      simp [hh, ih]

/-- A categorized product can cover the requirement. -/
lemma canCover_of_categorize {req : Requirement} {p : Product} {c : MatchCategory}
    (h : categorize req p = some c) : canCover req p = true := by
  by_cases hc : canCover req p = true
  · exact hc
  · rw [categorize, if_pos (by simpa using hc)] at h
    exact absurd h (by simp)

/-- Every candidate entry carries its own categorization and the score of
its category plus its stock bonus. -/
lemma candidates_spec {req : Requirement} {catalog : List Product}
    {m : MatchResult} (h : m ∈ candidates req catalog) :
    categorize req m.product = some m.category ∧
      m.score = baseScore m.category + stockBonus m.product := by
  simp only [candidates, List.mem_filterMap] at h
  obtain ⟨p, _, hm⟩ := h
  cases hc : categorize req p with
  | none => rw [hc] at hm; simp at hm
  | some c =>
    rw [hc] at hm
    simp only [Option.map_some', Option.some.injEq] at hm
    subst hm
    exact ⟨by simpa [mkMatchResult] using hc, by simp [mkMatchResult]⟩

/-- The stock bonus is between 0 and 5. -/
lemma stockBonus_bounds (p : Product) : 0 ≤ stockBonus p ∧ stockBonus p ≤ 5 := by
  unfold stockBonus
  split_ifs <;> norm_num

/-- A strictly higher base category beats any stock bonus. -/
lemma crossCategory_score_lt {p q : Product} {cp cq : MatchCategory}
    (hlt : baseScore cq < baseScore cp) :
    baseScore cq + stockBonus q < baseScore cp + stockBonus p := by
  obtain ⟨hq0, hq5⟩ := stockBonus_bounds q
  obtain ⟨hp0, hp5⟩ := stockBonus_bounds p
  cases cp <;> cases cq <;> simp [baseScore] at hlt ⊢ <;> linarith

/-! ## Claim theorems for the matching engine -/

/-- C4: the stock bonus can reorder products only within the same base
category — any strictly higher base category yields a strictly higher final
score regardless of stock — so in the ranked list a perfect-match
out-of-stock product always sits above an over-specified in-stock one. -/
theorem match_category_dominates_stock :
    (∀ (req : Requirement) (p q : Product) (cp cq : MatchCategory),
      categorize req p = some cp → categorize req q = some cq →
      baseScore cq < baseScore cp →
      (mkMatchResult q cq).score < (mkMatchResult p cp).score)
  ∧ (∀ (req : Requirement) (catalog : List Product) (i j : ℕ)
      (hi : i < (matchAll req catalog).length)
      (hj : j < (matchAll req catalog).length),
      ((matchAll req catalog).get ⟨i, hi⟩).category = .perfect →
      ((matchAll req catalog).get ⟨i, hi⟩).product.stock ≠ .in_stock →
      ((matchAll req catalog).get ⟨j, hj⟩).category = .overSpecified →
      ((matchAll req catalog).get ⟨j, hj⟩).product.stock = .in_stock →
      i < j) := by
  constructor
  · intro req p q cp cq _ _ hlt
    simpa [mkMatchResult] using crossCategory_score_lt hlt
  · intro req catalog i j hi hj hcat_i hstock_i hcat_j hstock_j
    simp only [List.get_eq_getElem] at hcat_i hstock_i hcat_j hstock_j
    have hmem_i : (matchAll req catalog)[i] ∈ candidates req catalog := by
      have hmem : (matchAll req catalog)[i] ∈ matchAll req catalog :=
        List.getElem_mem hi
      unfold matchAll at hmem
      exact mem_sortRanked.mp hmem
    have hmem_j : (matchAll req catalog)[j] ∈ candidates req catalog := by
      have hmem : (matchAll req catalog)[j] ∈ matchAll req catalog :=
        List.getElem_mem hj
      unfold matchAll at hmem
      exact mem_sortRanked.mp hmem
    have hscore_i : ((matchAll req catalog)[i]).score = 100 := by
      have h2 := (candidates_spec hmem_i).2
      rw [hcat_i] at h2
      rw [h2]
      norm_num [baseScore, stockBonus, hstock_i]
    have hscore_j : ((matchAll req catalog)[j]).score = 85 := by
      have h2 := (candidates_spec hmem_j).2
      rw [hcat_j] at h2
      rw [h2]
      norm_num [baseScore, stockBonus, hstock_j]
    by_contra hij
    push_neg at hij
    rcases lt_or_eq_of_le hij with hji | hji
    · have hpw : (matchAll req catalog).Pairwise rankLE := by
        unfold matchAll
        exact pairwise_sortRanked _
      have hr := (List.pairwise_iff_get.mp hpw) ⟨j, hj⟩ ⟨i, hi⟩ hji
      simp only [List.get_eq_getElem] at hr
      rw [rankLE_iff, hscore_i, hscore_j] at hr
      norm_num at hr
    · subst hji
      rw [hcat_i] at hcat_j
      exact absurd hcat_j (by simp)

/-- C5: the full ranked list is sorted by descending score with ascending
price breaking ties and catalog order breaking the rest (stable); the
caller receives exactly the top 3 of it; and no returned product fails to
cover the requirement. -/
theorem match_ordering_top3 :
    (∀ (req : Requirement) (catalog : List Product),
      matchTop req catalog = (matchAll req catalog).take 3 ∧
      (matchTop req catalog).length ≤ 3)
  ∧ (∀ (req : Requirement) (catalog : List Product),
      (matchAll req catalog).Pairwise (fun a b =>
        b.score < a.score ∨ (a.score = b.score ∧ a.product.price ≤ b.product.price)))
  ∧ (∀ (req : Requirement) (catalog : List Product) (s pr : ℚ),
      (matchAll req catalog).filter
          (fun m => m.score == s && m.product.price == pr) =
        (candidates req catalog).filter
          (fun m => m.score == s && m.product.price == pr))
  ∧ (∀ (req : Requirement) (catalog : List Product) (m : MatchResult),
      m ∈ matchTop req catalog → canCover req m.product = true) := by
  refine ⟨?_, ?_, ?_, ?_⟩
  · intro req catalog
    refine ⟨rfl, ?_⟩
    rw [matchTop]
    simp
  · intro req catalog
    have hpw : (matchAll req catalog).Pairwise rankLE := by
      unfold matchAll
      exact pairwise_sortRanked _
    refine hpw.imp ?_
    intro a b hab
    rw [rankLE_iff] at hab
    rcases lt_or_eq_of_le hab.1 with h | h
    · exact Or.inl h
    · exact Or.inr ⟨h.symm, hab.2 h⟩
  · intro req catalog s pr
    unfold matchAll
    exact filter_key_sortRanked _ s pr
  · intro req catalog m hm
    have hmem : m ∈ matchAll req catalog := by
      rw [matchTop] at hm
      exact (List.take_sublist 3 _).subset hm
    unfold matchAll at hmem
    have hc := (candidates_spec (mem_sortRanked.mp hmem)).1
    exact canCover_of_categorize hc

/-- The ranked list of the concrete witness catalog: the back-ordered
perfect match sorts above the in-stock over-specified product, and the
non-covering product is excluded. -/
lemma matchAll_reqW_catW :
    matchAll reqW catW =
      [mkMatchResult perfectOOS .perfect, mkMatchResult overIS .overSpecified] := by
  norm_num [matchAll, candidates, catW, categorize, canCover, reqW, overIS, tooSmall,
    perfectOOS, overMargin, List.filterMap_cons, mkMatchResult, baseScore, stockBonus,
    sortRanked, insertRanked, outranks, reduceCtorEq]
  simp
  norm_num

/-- Witness for C4 on the concrete catalog: the perfect-match back-ordered
product at position 0 precedes the over-specified in-stock product. -/
theorem match_category_dominates_stock_witness : (0 : ℕ) < 1 := by
  have hall := matchAll_reqW_catW
  have h0 : 0 < (matchAll reqW catW).length := by rw [hall]; norm_num
  have h1 : 1 < (matchAll reqW catW).length := by rw [hall]; norm_num
  exact match_category_dominates_stock.2 reqW catW 0 1 h0 h1
    (by simp [hall, mkMatchResult])
    (by simp [hall, mkMatchResult, perfectOOS])
    (by simp [hall, mkMatchResult])
    (by simp [hall, mkMatchResult, overIS])

/-- Witness for C5 on the concrete catalog: a returned product covers the
requirement. -/
theorem match_ordering_top3_witness :
    canCover reqW (mkMatchResult perfectOOS .perfect).product = true :=
  match_ordering_top3.2.2.2 reqW catW (mkMatchResult perfectOOS .perfect)
    (by simp [matchTop, matchAll_reqW_catW])

end Crelec

namespace Crelec

/-! ## Claim theorems for the quote generator -/

/-- C8: the "Valid Until" date printed by `generatePDF` is exactly 30 days
after the generation date, fixed in the generator (no validity parameter
exists in its signature). -/
theorem generatePDF_valid_until (today : ℕ) (q : QuoteData) :
    (generatePDF today q).validUntilDays = (generatePDF today q).dateDays + 30 ∧
    (generatePDF today q).dateDays = today :=
  ⟨rfl, rfl⟩

/-- C9: `getStockStatus` is total and reports exactly one of three
statuses — in stock iff `in_stock` is truthy or `stock_status` is
`"in_stock"`, otherwise low stock exactly when `stock_status` is
`"low_stock"`, otherwise on order — so a product with no stock fields is on
order, never an error. -/
theorem getStockStatus_trichotomy (p : JSProduct) :
    (getStockStatus p = .inStock ↔
      (truthyB p.in_stock = true ∨ p.stock_status = some "in_stock"))
  ∧ (getStockStatus p = .lowStock ↔
      (truthyB p.in_stock = false ∧ p.stock_status ≠ some "in_stock" ∧
        p.stock_status = some "low_stock"))
  ∧ (getStockStatus p = .onOrder ↔
      (truthyB p.in_stock = false ∧ p.stock_status ≠ some "in_stock" ∧
        p.stock_status ≠ some "low_stock"))
  ∧ (p.in_stock = none → p.stock_status = none → getStockStatus p = .onOrder) := by
  by_cases hs1 : p.stock_status = some "in_stock" <;>
    by_cases hs2 : p.stock_status = some "low_stock" <;>
      cases hb : truthyB p.in_stock <;>
        simp_all [getStockStatus, beq_iff_eq, truthyB]

/-- Witness for C9: a product with no stock fields at all is on order. -/
theorem getStockStatus_trichotomy_witness :
    getStockStatus emptyJSProduct = .onOrder :=
  (getStockStatus_trichotomy emptyJSProduct).2.2.2 rfl rfl

/-- Counterexample to C10 as stated: for an old-format product whose
`airflow_m3_min` and `airflow` are absent but whose `airflow_min` is 120,
the claim predicts a displayed airflow of 120 / 60 = 2, yet the generator
renders 0 (the code divides the `airflow` field, not `airflow_min`). -/
theorem generatePDF_airflow_fallback_counterexample :
    claimedAirflowC10 oldFormatProduct = 2 ∧
    (generatePDF 0 oldFormatQuote).productLines.map ProductLine.airflow = [0] ∧
    (2 : ℚ) ≠ 0 := by
  refine ⟨?_, ?_, by norm_num⟩
  · norm_num [claimedAirflowC10, oldFormatProduct, emptyJSProduct]
  · norm_num [generatePDF, oldFormatQuote, renderProductLine, displayedAirflow,
      jsOr, jsDiv, truthyQ, oldFormatProduct, emptyJSProduct]

/-- C10 (amended): `generatePDF` renders every recommended product without
failing; the displayed airflow is `airflow_m3_min` when truthy, else the
`airflow` field (a per-hour rate) divided by 60 when that is truthy, else
0; the displayed pressure is the `pressure` field when truthy, else the
mean of `pressure_min` and `pressure_max` with missing-or-zero bounds as 0;
a product with none of these fields renders zeros. -/
theorem generatePDF_product_field_fallbacks :
    (∀ (today : ℕ) (q : QuoteData),
      (generatePDF today q).productLines.map ProductLine.airflow =
        q.products.map (fun m => displayedAirflow m.product) ∧
      (generatePDF today q).productLines.map ProductLine.pressure =
        q.products.map (fun m => displayedPressure m.product))
  ∧ (∀ (p : JSProduct) (v : ℚ), p.airflow_m3_min = some v → v ≠ 0 →
      displayedAirflow p = v)
  ∧ (∀ (p : JSProduct) (w : ℚ), truthyQ p.airflow_m3_min = false →
      p.airflow = some w → w ≠ 0 → displayedAirflow p = w / 60)
  ∧ (∀ p : JSProduct, truthyQ p.airflow_m3_min = false →
      truthyQ (jsDiv p.airflow 60) = false → displayedAirflow p = 0)
  ∧ (∀ (p : JSProduct) (v : ℚ), p.pressure = some v → v ≠ 0 →
      displayedPressure p = v)
  ∧ (∀ p : JSProduct, truthyQ p.pressure = false →
      displayedPressure p = (jsNum0 p.pressure_min + jsNum0 p.pressure_max) / 2)
  ∧ (displayedAirflow emptyJSProduct = 0 ∧ displayedPressure emptyJSProduct = 0) := by
  refine ⟨?_, ?_, ?_, ?_, ?_, ?_, ?_⟩
  · intro today q
    constructor <;> (simp [generatePDF, List.map_map]; exact fun a _ => rfl)
  · intro p v h hv
    simp [displayedAirflow, jsOr, truthyQ, h, hv]
  · intro p w h hw hw0
    have hne : w / 60 ≠ 0 := div_ne_zero hw0 (by norm_num)
    have ht : truthyQ (some (w / 60)) = true := by simp [truthyQ, hne]
    simp [displayedAirflow, jsOr, jsDiv, h, hw, ht]
  · intro p h1 h2
    simp [displayedAirflow, jsOr, h1, h2]
  · intro p v h hv
    simp [displayedPressure, jsOr, truthyQ, h, hv]
  · intro p h
    simp [displayedPressure, jsOr, h]
  · constructor <;>
      norm_num [displayedAirflow, displayedPressure, jsOr, jsDiv, jsNum0,
        truthyQ, emptyJSProduct]

/-- Witness for C10 (amended): a product carrying only the per-hour
`airflow` field displays that value divided by 60. -/
theorem generatePDF_product_field_fallbacks_witness :
    displayedAirflow { emptyJSProduct with airflow := some 120 } = 120 / 60 :=
  generatePDF_product_field_fallbacks.2.2.1
    { emptyJSProduct with airflow := some 120 } 120 rfl rfl (by norm_num)

end Crelec
